import Mathlib

/-!
Verification development for the ArffFiles package recipe
(`conanfile.py` of rmontanana/ArffFiles).

The recipe is shallowly embedded:
* the version resolver of `ArffFilesConan.init` becomes `resolveVersion`,
  with the regular expression `VERSION\s+(\d+\.\d+\.\d+)` implemented
  deterministically (legal here because the character classes `\d`, `\s`
  and the literal `.` are pairwise disjoint, so greedy matching never
  backtracks);
* the source folder becomes an association list `FS` from file names to
  byte contents, `os.rename` becomes `rename` (which, as on POSIX,
  overwrites an existing destination and fails when the source is
  missing);
* `ArffFilesConan.build` becomes `build`, returning the final state of
  the source folder, the outcome (normal return or raised error), and
  the trace of calls made to the external CMake helper;
* `ArffFilesConan.generate` becomes `generate` / `generateMinimalContent`
  (only the write into the source folder is modelled; the toolchain and
  dependency files go to the generators folder, outside the modelled
  tree);
* `ArffFilesConan.package` becomes `package` over the declared artifact
  list, with the external copy collaborator abstracted by a predicate.
-/

/-- `\d` of the pattern, restricted to ASCII as the descriptor is ASCII. -/
def pyIsDigit (c : Char) : Bool := decide ('0' ≤ c) && decide (c ≤ '9')

/-- `\s` of the pattern: space, tab, newline, vertical tab, form feed,
carriage return. -/
def pyIsSpace (c : Char) : Bool :=
  c = ' ' || c = '\t' || c = '\n' || c = '\x0b' || c = '\x0c' || c = '\r'

/-- Match the pattern `VERSION\s+(\d+\.\d+\.\d+)` at the head of `cs`,
returning the captured group. Greedy maximal runs are correct here
because `\d`, `\s` and `.` are disjoint. -/
def matchVersionAt (cs : List Char) : Option (List Char) :=
  if cs.take 7 = "VERSION".data then
    let rest := cs.drop 7
    if (rest.takeWhile pyIsSpace).isEmpty then none else
    let r1 := rest.dropWhile pyIsSpace
    let d1 := r1.takeWhile pyIsDigit
    if d1.isEmpty then none else
    match r1.dropWhile pyIsDigit with
    | '.' :: r2 =>
      let d2 := r2.takeWhile pyIsDigit
      if d2.isEmpty then none else
      match r2.dropWhile pyIsDigit with
      | '.' :: r3 =>
        let d3 := r3.takeWhile pyIsDigit
        if d3.isEmpty then none else some (d1 ++ '.' :: d2 ++ '.' :: d3)
      | _ => none
    | _ => none
  else none

/-- `re.search`: leftmost occurrence of the pattern in the line. -/
def reSearchVersion : List Char → Option (List Char)
  | [] => none
  | c :: rest =>
    match matchVersionAt (c :: rest) with
    | some v => some v
    | none => reSearchVersion rest

/-- Python substring test `needle in hay`. -/
def hasSubstr (needle : List Char) : List Char → Bool
  | [] => needle.isEmpty
  | c :: rest => ((c :: rest).take needle.length == needle) || hasSubstr needle rest

/-- One iteration of the loop body of `init`: the line contributes a new
version exactly when it contains the token `VERSION` and the regular
expression finds a match. -/
def lineMatch (line : List Char) : Option (List Char) :=
  if hasSubstr "VERSION".data line then reSearchVersion line else none

/-- `ArffFilesConan.init`: fold the loop over the descriptor lines,
starting from the current value of `self.version` (the placeholder
`X.X.X` on a fresh recipe). Each matching line overwrites the value. -/
def resolveVersion (lines : List (List Char)) (v : List Char) : List Char :=
  lines.foldl (fun acc line => (lineMatch line).getD acc) v

/-- The placeholder value of the `version` class attribute. -/
def placeholderVersion : List Char := "X.X.X".data

/-- `readlines`: split into lines, each keeping its trailing newline. -/
def splitLinesAux : List Char → List Char → List (List Char)
  | [], acc => if acc.isEmpty then [] else [acc.reverse]
  | c :: rest, acc =>
    if c = '\n' then (acc.reverse ++ ['\n']) :: splitLinesAux rest []
    else splitLinesAux rest (c :: acc)

/-- Split a file content into its lines, as `readlines` does. -/
def splitLines (cs : List Char) : List (List Char) := splitLinesAux cs []

example : resolveVersion [("project(ArffFiles VERSION 1.2.3)\n").data] placeholderVersion
    = "1.2.3".data := by decide

example : resolveVersion [("cmake_minimum_required(VERSION 3.20)\n").data] placeholderVersion
    = placeholderVersion := by decide

/-! ### The source folder, as mutated by `generate` and `build` -/

/-- The source folder: an association list from file names to byte
contents. Only the files that the recipe itself touches are modelled. -/
abbrev FS := List (String × String)

/-- Look a file up (first binding wins, as in `List.lookup`). -/
def getFile : FS → String → Option String
  | [], _ => none
  | (k, v) :: rest, n => if k = n then some v else getFile rest n

/-- Remove every binding of a name. -/
def eraseKey : FS → String → FS
  | [], _ => []
  | (k, v) :: rest, n => if k = n then eraseKey rest n else (k, v) :: eraseKey rest n

/-- Bind a name to a content, dropping previous bindings. -/
def setFile (fs : FS) (n c : String) : FS := (n, c) :: eraseKey fs n

/-- Errors that `build` can surface: a failed `os.rename`
(`FileNotFoundError`, carrying the missing source path) or a failed
external configure step (the spec calls it `BuildConfigureError`). -/
inductive BuildError
  | renameFail (src : String)
  | configureFail
deriving DecidableEq, Repr

/-- `os.rename` on POSIX: fails when the source is missing, otherwise
moves the content, silently replacing any existing destination. -/
def rename (fs : FS) (src dst : String) : Except BuildError FS :=
  match getFile fs src with
  | none => Except.error (BuildError.renameFail src)
  | some c => Except.ok (setFile (eraseKey fs src) dst c)

/-- Calls that the recipe issues on the external CMake helper object;
`configure` carries the variables passed to it. The `compile` phase
(`cmake.build()`) is listed so that its absence from every trace is a
statement, not a modelling gap. -/
inductive CMakeCall
  | configure (vars : List (String × String))
  | compile (args : List String)
deriving DecidableEq, Repr

/-- Outcome of `ArffFilesConan.build`: the value returned or error
raised, the final state of the source folder, and the trace of calls
to the external CMake helper. -/
structure BuildOutcome where
  result : Except BuildError Unit
  fs : FS
  calls : List CMakeCall
deriving Repr

/-- `CMakeLists.txt` inside `source_folder`. -/
def originalName : String := "CMakeLists.txt"

/-- `CMakeLists_conan.txt` inside `source_folder`. -/
def minimalName : String := "CMakeLists_conan.txt"

/-- `CMakeLists_backup.txt` inside `source_folder`. -/
def backupName : String := "CMakeLists_backup.txt"

/-- `ArffFilesConan.build`. The two swap renames run before the `try`
block; `cmake.configure()` (with no variables) runs inside `try`; the
two restore renames run in `finally`, so they execute on the success
path and on the configure-failure path alike, and an error raised by a
restore rename supersedes the configure error, as a raising `finally`
block does in Python. `configureOk` abstracts whether the external
configure invocation succeeds. -/
def build (fs0 : FS) (configureOk : Bool) : BuildOutcome :=
  match rename fs0 originalName backupName with
  | Except.error e => ⟨Except.error e, fs0, []⟩
  | Except.ok fs1 =>
    match rename fs1 minimalName originalName with
    | Except.error e => ⟨Except.error e, fs1, []⟩
    | Except.ok fs2 =>
      let res : Except BuildError Unit :=
        if configureOk then Except.ok () else Except.error BuildError.configureFail
      match rename fs2 originalName minimalName with
      | Except.error e => ⟨Except.error e, fs2, [CMakeCall.configure []]⟩
      | Except.ok fs3 =>
        match rename fs3 backupName originalName with
        | Except.error e => ⟨Except.error e, fs3, [CMakeCall.configure []]⟩
        | Except.ok fs4 => ⟨res, fs4, [CMakeCall.configure []]⟩

/-- The minimal descriptor text that `generate` synthesizes, verbatim. -/
def minimalCMake : String :=
  "cmake_minimum_required(VERSION 3.20)\n\nproject(ArffFiles\n  VERSION 1.2.1\n  DESCRIPTION \"Library to read Arff Files and return STL vectors with the data read.\"\n  HOMEPAGE_URL \"https://github.com/rmontanana/ArffFiles\"\n  LANGUAGES CXX\n)\n\n# Subdirectories\nadd_subdirectory(config)\n"

/-- The minimal descriptor as a function of the resolved version: the
source builds the text from a fixed literal, with `self.version` in
scope but unused, so the parameter is ignored. -/
def generateMinimalContent (_resolvedVersion : String) : String := minimalCMake

/-- The effect of `ArffFilesConan.generate` on the source folder: write
the minimal descriptor to `CMakeLists_conan.txt` (the toolchain and
dependency files it also emits land in the generators folder, outside
the modelled tree). -/
def generate (fs : FS) : FS := setFile fs minimalName minimalCMake

/-! ### Packager (`ArffFilesConan.package`) -/

/-- One `copy(...)` call of `package`: the file pattern, the source
directory, the destination directory and the `keep_path` flag. -/
structure Artifact where
  pattern : String
  src : String
  dst : String
  keep_path : Bool
deriving DecidableEq, Repr

/-- The four artifacts that `package` declares, in call order, with the
source and destination directories exactly as the recipe resolves
them. -/
def artifactSet (source_folder build_folder package_folder : String) : List Artifact :=
  [ ⟨"ArffFiles.hpp", source_folder, package_folder, false⟩,
    ⟨"arffFiles_config.h", build_folder ++ "/configured_files/include", package_folder, false⟩,
    ⟨"LICENSE", source_folder, package_folder, false⟩,
    ⟨"README.md", source_folder, package_folder, false⟩ ]

/-- The error the spec calls `CopyError`: `pattern` was declared but
absent under `src` at copy time. -/
structure CopyError where
  pattern : String
  src : String
deriving DecidableEq, Repr

/-- Modelled from the spec: the external copy collaborator
(`conan.tools.files.copy`, not part of this repository) is specified to
fail with a `CopyError` when the declared source path does not exist at
copy time, and to copy the artifact otherwise; `srcExists dir pat`
abstracts whether pattern `pat` exists under directory `dir`. -/
def copyOne (srcExists : String → String → Bool) (a : Artifact) : Except CopyError Unit :=
  if srcExists a.src a.pattern then Except.ok () else Except.error ⟨a.pattern, a.src⟩

/-- Run the copies in order; the first raised `CopyError` propagates
(the recipe installs no handler) and no further copy runs. On success
the list of copied artifacts is returned. -/
def copyAll (srcExists : String → String → Bool) : List Artifact → Except CopyError (List Artifact)
  | [] => Except.ok []
  | a :: rest =>
    match copyOne srcExists a with
    | Except.error e => Except.error e
    | Except.ok _ =>
      match copyAll srcExists rest with
      | Except.error e => Except.error e
      | Except.ok l => Except.ok (a :: l)

/-- `ArffFilesConan.package`: copy the four declared artifacts. -/
def package (srcExists : String → String → Bool)
    (source_folder build_folder package_folder : String) : Except CopyError (List Artifact) :=
  copyAll srcExists (artifactSet source_folder build_folder package_folder)

/-! ### Layout selector -/

/-- The two layouts the spec distinguishes. -/
inductive Layout
  | cache
  | flat
deriving DecidableEq, Repr

/-- Modelled from the spec: the layout selector of the recipe variants
not present under `src/` (the variant under `src/` calls `cmake_layout`
unconditionally). Decision rule of the spec: if a cache-context marker
substring is present in the build-folder path, select the cache layout;
otherwise select the flat/no-op development layout. -/
def layoutSelect (marker : String) (build_folder : String) : Layout :=
  if hasSubstr marker.data build_folder.data then Layout.cache else Layout.flat

/-! ### Basic lemmas about the source-folder model -/

theorem getFile_eraseKey_ne (fs : FS) {n n' : String} (h : n ≠ n') :
    getFile (eraseKey fs n) n' = getFile fs n' := by
  induction fs with
  | nil => rfl
  | cons kv rest ih =>
    obtain ⟨k, v⟩ := kv
    by_cases hk : k = n
    · subst hk
      simp [eraseKey, getFile, ih, h]
    · simp [eraseKey, getFile, hk, ih]

theorem getFile_setFile_self (fs : FS) (n c : String) :
    getFile (setFile fs n c) n = some c := by
  simp [setFile, getFile]

theorem getFile_setFile_ne (fs : FS) {n n' : String} (c : String) (h : n ≠ n') :
    getFile (setFile fs n c) n' = getFile fs n' := by
  simp [setFile, getFile, h, getFile_eraseKey_ne fs h]

theorem rename_ok {fs : FS} {src c : String} (dst : String) (h : getFile fs src = some c) :
    rename fs src dst = Except.ok (setFile (eraseKey fs src) dst c) := by
  simp [rename, h]

theorem rename_err {fs : FS} {src : String} (dst : String) (h : getFile fs src = none) :
    rename fs src dst = Except.error (BuildError.renameFail src) := by
  simp [rename, h]

/-- Full symbolic run of `build` when the source folder holds both the
original descriptor (content `c`) and the minimal descriptor (content
`m`): every rename succeeds, the configure call is issued once with no
variables, the configure outcome becomes the result, and afterwards the
original descriptor again has content `c` and the minimal descriptor
again has content `m`. -/
theorem build_normal (fs : FS) (c m : String) (ok : Bool)
    (h1 : getFile fs originalName = some c) (h2 : getFile fs minimalName = some m) :
    (build fs ok).result
        = (if ok then Except.ok () else Except.error BuildError.configureFail) ∧
    getFile (build fs ok).fs originalName = some c ∧
    getFile (build fs ok).fs minimalName = some m ∧
    (build fs ok).calls = [CMakeCall.configure []] := by
  have hob : originalName ≠ backupName := by decide
  have hom : originalName ≠ minimalName := by decide
  have hbm : backupName ≠ minimalName := by decide
  set fs1 : FS := setFile (eraseKey fs originalName) backupName c with hfs1
  have e1 : rename fs originalName backupName = Except.ok fs1 := rename_ok _ h1
  have g1 : getFile fs1 minimalName = some m := by
    rw [hfs1, getFile_setFile_ne _ _ hbm, getFile_eraseKey_ne _ hom, h2]
  set fs2 : FS := setFile (eraseKey fs1 minimalName) originalName m with hfs2
  have e2 : rename fs1 minimalName originalName = Except.ok fs2 := rename_ok _ g1
  have g2 : getFile fs2 originalName = some m := by
    rw [hfs2]; exact getFile_setFile_self _ _ _
  set fs3 : FS := setFile (eraseKey fs2 originalName) minimalName m with hfs3
  have e3 : rename fs2 originalName minimalName = Except.ok fs3 := rename_ok _ g2
  have g3 : getFile fs3 backupName = some c := by
    rw [hfs3, getFile_setFile_ne _ _ (Ne.symm hbm), getFile_eraseKey_ne _ hob, hfs2,
      getFile_setFile_ne _ _ hob, getFile_eraseKey_ne _ (Ne.symm hbm), hfs1]
    exact getFile_setFile_self _ _ _
  set fs4 : FS := setFile (eraseKey fs3 backupName) originalName c with hfs4
  have e4 : rename fs3 backupName originalName = Except.ok fs4 := rename_ok _ g3
  have hb : build fs ok
      = ⟨(if ok then Except.ok () else Except.error BuildError.configureFail), fs4,
          [CMakeCall.configure []]⟩ := by
    simp only [build, e1, e2, e3, e4]
  refine ⟨by rw [hb], ?_, ?_, by rw [hb]⟩
  · rw [hb, hfs4]
    exact getFile_setFile_self _ _ _
  · rw [hb, hfs4, getFile_setFile_ne _ _ hom, getFile_eraseKey_ne _ hbm, hfs3]
    exact getFile_setFile_self _ _ _

theorem getFile_eraseKey_self (fs : FS) (n : String) :
    getFile (eraseKey fs n) n = none := by
  induction fs with
  | nil => rfl
  | cons kv rest ih =>
    obtain ⟨k, v⟩ := kv
    by_cases hk : k = n
    · simp [eraseKey, hk, ih]
    · simp [eraseKey, getFile, hk, ih]

/-- Symbolic run of `build` when the original descriptor is present but
the minimal one is absent (for instance because `generate` never ran):
the first rename succeeds, the second raises before the `try` block is
entered, so configure is never called, no restoration executes, the
original descriptor name is gone and its content sits under the backup
name. -/
theorem build_missing_minimal (fs : FS) (c : String) (ok : Bool)
    (h1 : getFile fs originalName = some c) (h2 : getFile fs minimalName = none) :
    (build fs ok).result = Except.error (BuildError.renameFail minimalName) ∧
    getFile (build fs ok).fs originalName = none ∧
    getFile (build fs ok).fs backupName = some c ∧
    (build fs ok).calls = [] := by
  have hob : originalName ≠ backupName := by decide
  have hom : originalName ≠ minimalName := by decide
  have hbm : backupName ≠ minimalName := by decide
  set fs1 : FS := setFile (eraseKey fs originalName) backupName c with hfs1
  have e1 : rename fs originalName backupName = Except.ok fs1 := rename_ok _ h1
  have g1 : getFile fs1 minimalName = none := by
    rw [hfs1, getFile_setFile_ne _ _ hbm, getFile_eraseKey_ne _ hom, h2]
  have e2 : rename fs1 minimalName originalName
      = Except.error (BuildError.renameFail minimalName) := rename_err _ g1
  have hb : build fs ok
      = ⟨Except.error (BuildError.renameFail minimalName), fs1, []⟩ := by
    simp only [build, e1, e2]
  refine ⟨by rw [hb], ?_, ?_, by rw [hb]⟩
  · rw [hb, hfs1, getFile_setFile_ne _ _ (Ne.symm hob)]
    exact getFile_eraseKey_self _ _
  · rw [hb, hfs1]
    exact getFile_setFile_self _ _ _

/-- Whatever the initial source folder and the configure outcome, the
trace of calls to the external CMake helper is empty (a swap rename
raised first) or the single call `configure` with no variables; in
particular no compile/build call ever appears. -/
theorem build_calls_shape (fs : FS) (ok : Bool) :
    (build fs ok).calls = [] ∨ (build fs ok).calls = [CMakeCall.configure []] := by
  cases h1 : rename fs originalName backupName with
  | error e => left; simp only [build, h1]
  | ok fs1 =>
    cases h2 : rename fs1 minimalName originalName with
    | error e => left; simp only [build, h1, h2]
    | ok fs2 =>
      cases h3 : rename fs2 originalName minimalName with
      | error e => right; simp only [build, h1, h2, h3]
      | ok fs3 =>
        cases h4 : rename fs3 backupName originalName with
        | error e => right; simp only [build, h1, h2, h3, h4]
        | ok fs4 => right; simp only [build, h1, h2, h3, h4]

/-- `resolveVersion` keeps the triple of the last line that matches the
pattern, and the start value when no line matches: the loop of `init`
overwrites `self.version` on every match and never breaks. -/
theorem resolveVersion_eq_lastMatch (ls : List (List Char)) (v : List Char) :
    resolveVersion ls v = ((ls.filterMap lineMatch).getLast?).getD v := by
  induction ls generalizing v with
  | nil => rfl
  | cons l ls ih =>
    show resolveVersion ls ((lineMatch l).getD v)
        = (((l :: ls).filterMap lineMatch).getLast?).getD v
    rw [ih]
    cases hl : lineMatch l with
    | none => simp [List.filterMap_cons, hl]
    | some m =>
      simp only [List.filterMap_cons, hl, Option.getD_some]
      cases hft : ls.filterMap lineMatch with
      | nil => simp
      | cons a t =>
        cases hx : (a :: t).getLast? with
        | none => simp at hx
        | some x => simp [hx]

theorem resolveVersion_of_no_match (ls : List (List Char)) (v : List Char)
    (h : ∀ l ∈ ls, reSearchVersion l = none) : resolveVersion ls v = v := by
  induction ls generalizing v with
  | nil => rfl
  | cons l ls ih =>
    show resolveVersion ls ((lineMatch l).getD v) = v
    have hl : lineMatch l = none := by
      unfold lineMatch
      rw [h l (List.mem_cons_self l ls)]
      simp
    rw [hl]
    exact ih v fun l' hl' => h l' (List.mem_cons_of_mem l hl')

/-- If some declared artifact is missing from its source directory, the
copy sequence raises a `CopyError`. -/
theorem copyAll_error_of_missing (srcExists : String → String → Bool)
    (l : List Artifact) (a : Artifact) (ha : a ∈ l)
    (hm : srcExists a.src a.pattern = false) :
    ∃ e : CopyError, copyAll srcExists l = Except.error e := by
  induction l with
  | nil => cases ha
  | cons b rest ih =>
    by_cases hb : srcExists b.src b.pattern
    · rcases List.mem_cons.mp ha with rfl | hmem
      · rw [hb] at hm; cases hm
      · obtain ⟨e, he⟩ := ih hmem
        exact ⟨e, by simp [copyAll, copyOne, hb, he]⟩
    · exact ⟨⟨b.pattern, b.src⟩, by simp [copyAll, copyOne, hb]⟩

/-- The copy sequence succeeds exactly when every declared artifact
exists at its source, and then reports exactly the declared artifacts
in order. -/
theorem copyAll_ok_iff (srcExists : String → String → Bool) (l : List Artifact) :
    copyAll srcExists l = Except.ok l ↔ ∀ a ∈ l, srcExists a.src a.pattern = true := by
  induction l with
  | nil => simp [copyAll]
  | cons b rest ih =>
    by_cases hb : srcExists b.src b.pattern
    · constructor
      · intro h a ha
        rcases List.mem_cons.mp ha with rfl | hmem
        · exact hb
        · have : copyAll srcExists rest = Except.ok rest := by
            revert h
            simp only [copyAll, copyOne, hb, if_true]
            cases hr : copyAll srcExists rest with
            | error e => intro h; cases h
            | ok t => intro h; simp_all
          exact (ih.mp this) a hmem
      · intro h
        have hr : copyAll srcExists rest = Except.ok rest :=
          ih.mpr fun a ha => h a (List.mem_cons_of_mem b ha)
        simp [copyAll, copyOne, hb, hr]
    · constructor
      · intro h
        exfalso
        revert h
        simp [copyAll, copyOne, hb]
      · intro h
        exact absurd (h b (List.mem_cons_self b rest)) (by simpa using hb)

/-! ### Concrete inputs used by witnesses and counterexamples -/

/-- A sample content for the real descriptor. -/
def demoContent : String := "project(ArffFiles VERSION 9.9.9)\n"

/-- Source folder after `generate`: the real descriptor plus the
minimal one. -/
def demoFS : FS := [(originalName, demoContent), (minimalName, minimalCMake)]

/-- Source folder before `generate`: only the real descriptor. -/
def demoOrigOnly : FS := [(originalName, demoContent)]

/-- An existence oracle under which the `LICENSE` artifact is missing
and everything else is present. -/
def demoMissing : String → String → Bool := fun _ pat => !(pat == "LICENSE")

/-! ### Claims -/

/-- Claim C1: for every orchestration run of the build step, whether
the external configure invocation succeeds (`configureOk = true`) or
raises (`configureOk = false`), the build-configuration descriptor
`CMakeLists.txt` in the source folder has, after orchestration, byte
content equal to its content before orchestration: the swap composed
with the restore of the `finally` block is the identity on the
descriptor file. The hypotheses state that the source folder holds the
original descriptor and the minimal descriptor written by `generate`,
which is the state in which `build` runs. -/
theorem c1_descriptor_roundtrip (fs : FS) (c m : String)
    (h1 : getFile fs originalName = some c) (h2 : getFile fs minimalName = some m) :
    ∀ configureOk : Bool,
      getFile (build fs configureOk).fs originalName = getFile fs originalName := by
  intro ok
  rw [h1]
  exact (build_normal fs c m ok h1 h2).2.1

/-- Witness for C1 at a concrete source folder, for both configure
outcomes. -/
theorem c1_descriptor_roundtrip_witness :
    getFile demoFS originalName = some demoContent ∧
    getFile demoFS minimalName = some minimalCMake ∧
    (∀ configureOk : Bool,
      getFile (build demoFS configureOk).fs originalName = getFile demoFS originalName) :=
  ⟨rfl, rfl, c1_descriptor_roundtrip demoFS demoContent minimalCMake rfl rfl⟩

/-- Claim C2: when the configure step fails, the restoration of the
original descriptor executes (the final source folder again binds the
original descriptor to its pre-swap content) and the configure failure
is then surfaced as the result of `build` — the error the spec calls
`BuildConfigureError` — rather than being swallowed. -/
theorem c2_configure_failure_restores_then_raises (fs : FS) (c m : String)
    (h1 : getFile fs originalName = some c) (h2 : getFile fs minimalName = some m) :
    (build fs false).result = Except.error BuildError.configureFail ∧
    getFile (build fs false).fs originalName = some c ∧
    getFile (build fs false).fs minimalName = some m := by
  have h := build_normal fs c m false h1 h2
  exact ⟨by simpa using h.1, h.2.1, h.2.2.1⟩

/-- Witness for C2 at a concrete source folder. -/
theorem c2_configure_failure_witness :
    getFile demoFS originalName = some demoContent ∧
    getFile demoFS minimalName = some minimalCMake ∧
    ((build demoFS false).result = Except.error BuildError.configureFail ∧
      getFile (build demoFS false).fs originalName = some demoContent ∧
      getFile (build demoFS false).fs minimalName = some minimalCMake) :=
  ⟨rfl, rfl, c2_configure_failure_restores_then_raises demoFS demoContent minimalCMake rfl rfl⟩

/-- Claim C3 is false as stated: with two matching lines, the resolver
returns the second line's triple, not the first match's triple — the
loop of `init` has no `break`, so every matching line overwrites
`self.version`. -/
theorem c3_first_match_counterexample :
    resolveVersion ["VERSION 1.2.3\n".data, "VERSION 4.5.6\n".data] placeholderVersion
        = "4.5.6".data ∧
    "4.5.6".data ≠ "1.2.3".data := ⟨by decide, by decide⟩

/-- Claim C3, amended: the resolver scans every line containing the
token `VERSION`, applies the triple pattern, and overwrites the result
on each match, so the LAST matching line's triple is returned (the
start value when no line matches); for a descriptor whose only matching
line is `VERSION 1.2.3` it returns `1.2.3`. -/
theorem c3_last_match_wins :
    (∀ (ls : List (List Char)) (v : List Char),
      resolveVersion ls v = ((ls.filterMap lineMatch).getLast?).getD v) ∧
    resolveVersion ["VERSION 1.2.3\n".data] placeholderVersion = "1.2.3".data :=
  ⟨resolveVersion_eq_lastMatch, by decide⟩

/-- Claim C4: the layout selector returns the cache layout exactly when
the build-folder path contains the cache-context marker substring, and
the flat development layout otherwise; as a pure function of the path
it has no side effects. -/
theorem c4_layout_cache_iff_marker (marker build_folder : String) :
    (layoutSelect marker build_folder = Layout.cache
        ↔ hasSubstr marker.data build_folder.data = true) ∧
    (layoutSelect marker build_folder = Layout.flat
        ↔ hasSubstr marker.data build_folder.data = false) := by
  unfold layoutSelect
  by_cases h : hasSubstr marker.data build_folder.data
  · simp [h]
  · simp [h]

/-- Claim C5 is false as stated: in a concrete successful run the
external build system receives exactly one configure call carrying an
empty variable list, so no testing-disabling or coverage-disabling
flag is passed. -/
theorem c5_no_disabling_flags_counterexample :
    (build demoFS true).calls = [CMakeCall.configure []] ∧
    ¬ ∃ vars, CMakeCall.configure vars ∈ (build demoFS true).calls ∧ vars ≠ [] := by
  have h : (build demoFS true).calls = [CMakeCall.configure []] := rfl
  refine ⟨h, ?_⟩
  rintro ⟨vars, hmem, hne⟩
  rw [h] at hmem
  simp only [List.mem_singleton, CMakeCall.configure.injEq] at hmem
  exact hne hmem

/-- Claim C5, amended: the build step invokes only the external build
system's configuration phase — its trace is empty or the single
configure call — never the compile phase, and the configure call
passes no variables at all (in particular none disabling testing or
coverage). -/
theorem c5_configure_only_no_flags (fs : FS) (configureOk : Bool) :
    ((build fs configureOk).calls = []
        ∨ (build fs configureOk).calls = [CMakeCall.configure []]) ∧
    ∀ args, CMakeCall.compile args ∉ (build fs configureOk).calls := by
  rcases build_calls_shape fs configureOk with h | h
  · refine ⟨Or.inl h, ?_⟩
    intro args hmem
    rw [h] at hmem
    cases hmem
  · refine ⟨Or.inr h, ?_⟩
    intro args hmem
    rw [h] at hmem
    simp at hmem

/-- Claim C6: if a declared artifact's source path does not exist at
copy time, packaging surfaces a `CopyError` and never reports a
successful artifact list. The `copy` collaborator is external to the
repository; its failure behavior is the one the spec fixes for it. -/
theorem c6_missing_artifact_raises_copy_error
    (srcExists : String → String → Bool) (sf bf pf : String) (a : Artifact)
    (ha : a ∈ artifactSet sf bf pf) (hm : srcExists a.src a.pattern = false) :
    (∃ e : CopyError, package srcExists sf bf pf = Except.error e) ∧
    ∀ l, package srcExists sf bf pf ≠ Except.ok l := by
  obtain ⟨e, he⟩ := copyAll_error_of_missing srcExists _ a ha hm
  refine ⟨⟨e, he⟩, ?_⟩
  intro l h
  rw [package] at h
  rw [he] at h
  cases h

/-- Witness for C6: with the `LICENSE` artifact missing, packaging
fails. -/
theorem c6_missing_artifact_witness :
    (⟨"LICENSE", "SRC", "PKG", false⟩ : Artifact) ∈ artifactSet "SRC" "BLD" "PKG" ∧
    demoMissing "SRC" "LICENSE" = false ∧
    ((∃ e : CopyError, package demoMissing "SRC" "BLD" "PKG" = Except.error e) ∧
      ∀ l, package demoMissing "SRC" "BLD" "PKG" ≠ Except.ok l) :=
  ⟨by decide, rfl,
    c6_missing_artifact_raises_copy_error demoMissing "SRC" "BLD" "PKG"
      ⟨"LICENSE", "SRC", "PKG", false⟩ (by decide) rfl⟩

/-- Claim C7 is false as stated: after a full `generate`-then-`build`
cycle that succeeds, the minimal descriptor file is still present in
the source tree under `CMakeLists_conan.txt` — the `finally` block
renames it back there and nothing deletes it. -/
theorem c7_minimal_descriptor_persists_counterexample :
    getFile (build (generate demoOrigOnly) true).fs minimalName = some minimalCMake ∧
    getFile (build (generate demoOrigOnly) true).fs minimalName ≠ none := by
  have h : getFile (build (generate demoOrigOnly) true).fs minimalName
      = some minimalCMake := rfl
  exact ⟨h, by rw [h]; simp⟩

/-- Claim C7, amended: the minimal descriptor occupies the original
descriptor's path only transiently, during the configure step; after
orchestration it is moved back to its own name `CMakeLists_conan.txt`,
where it persists in the source tree (it is not deleted), while the
original descriptor is back at `CMakeLists.txt`. -/
theorem c7_minimal_restored_to_own_name (fs : FS) (c m : String) (configureOk : Bool)
    (h1 : getFile fs originalName = some c) (h2 : getFile fs minimalName = some m) :
    getFile (build fs configureOk).fs minimalName = some m ∧
    getFile (build fs configureOk).fs originalName = some c :=
  ⟨(build_normal fs c m configureOk h1 h2).2.2.1,
    (build_normal fs c m configureOk h1 h2).2.1⟩

/-- Witness for the amended C7 at a concrete source folder. -/
theorem c7_minimal_restored_witness :
    getFile demoFS originalName = some demoContent ∧
    getFile demoFS minimalName = some minimalCMake ∧
    (getFile (build demoFS true).fs minimalName = some minimalCMake ∧
      getFile (build demoFS true).fs originalName = some demoContent) :=
  ⟨rfl, rfl, c7_minimal_restored_to_own_name demoFS demoContent minimalCMake true rfl rfl⟩

/-- Claim C8: when no descriptor line matches the VERSION-triple
pattern, the resolver returns the unresolved placeholder `X.X.X`
unchanged, and no error arises (the function is total). -/
theorem c8_no_match_keeps_placeholder (ls : List (List Char))
    (h : ∀ l ∈ ls, reSearchVersion l = none) :
    resolveVersion ls placeholderVersion = placeholderVersion :=
  resolveVersion_of_no_match ls placeholderVersion h

/-- Witness for C8 on a descriptor whose lines carry no version triple
(one of them even contains the token `VERSION` without a triple). -/
theorem c8_no_match_witness :
    (∀ l ∈ [("cmake_minimum_required(VERSION 3.20)\n").data,
        ("project(ArffFiles)\n").data], reSearchVersion l = none) ∧
    resolveVersion [("cmake_minimum_required(VERSION 3.20)\n").data,
        ("project(ArffFiles)\n").data] placeholderVersion = placeholderVersion :=
  ⟨by decide, c8_no_match_keeps_placeholder _ (by decide)⟩

/-- Claim C9: the swap is not covered by the restoration guarantee.
When the minimal descriptor is absent (for instance because `generate`
never ran), the first rename has already moved the original descriptor
to the backup name when the second rename raises, before the protected
region begins: the run fails, configure is never called, no
restoration executes, `CMakeLists.txt` is gone and the original
content sits under `CMakeLists_backup.txt`. -/
theorem c9_swap_unprotected (fs : FS) (c : String) (configureOk : Bool)
    (h1 : getFile fs originalName = some c) (h2 : getFile fs minimalName = none) :
    (build fs configureOk).result = Except.error (BuildError.renameFail minimalName) ∧
    getFile (build fs configureOk).fs originalName = none ∧
    getFile (build fs configureOk).fs backupName = some c ∧
    (build fs configureOk).calls = [] :=
  build_missing_minimal fs c configureOk h1 h2

/-- Witness for C9: a source folder holding only the original
descriptor. -/
theorem c9_swap_unprotected_witness :
    getFile demoOrigOnly originalName = some demoContent ∧
    getFile demoOrigOnly minimalName = none ∧
    ((build demoOrigOnly true).result = Except.error (BuildError.renameFail minimalName) ∧
      getFile (build demoOrigOnly true).fs originalName = none ∧
      getFile (build demoOrigOnly true).fs backupName = some demoContent ∧
      (build demoOrigOnly true).calls = []) :=
  ⟨rfl, rfl, c9_swap_unprotected demoOrigOnly demoContent true rfl rfl⟩

/-- Claim C10: the synthesized minimal descriptor is a constant — the
resolved version in scope during `generate` is never interpolated into
it — and the version it declares to the configure step is the
hardcoded `1.2.1` (the version resolver itself, run on the minimal
descriptor's lines, extracts `1.2.1`). -/
theorem c10_minimal_version_hardcoded :
    (∀ v w : String, generateMinimalContent v = generateMinimalContent w) ∧
    (∀ v : String,
      resolveVersion (splitLines (generateMinimalContent v).data) placeholderVersion
          = "1.2.1".data) := by
  refine ⟨fun v w => rfl, fun v => ?_⟩
  show resolveVersion (splitLines minimalCMake.data) placeholderVersion = "1.2.1".data
  decide



